import Mathlib

/-!
Verification development for the txCloudCVMCract local cache layer.

The definitions below are a shallow embedding of:
  * `src/utils/db_manager.py` — the SQLite-backed instance cache
    (`upsert_instances`, `mark_all_instances_as_deleted`,
    `update_instance_status`, `soft_delete_missing`, `list_instances`,
    `get_instances`, `replace_zones`, `_first_ip`);
  * `src/core/cvm_manager.py` — the cache-write portion of
    `CVMManager.get_instances` (lines 517-527), the display-IP selection
    (lines 493-496) and the disk-type fallback block of `CVMManager.create`
    (lines 329-369).

SQLite cells are modelled by `PyVal` (`.none` is SQL NULL / Python None);
Python dicts by association lists `Rec`; the `instances` table by
`List Row`.  SQL `WHERE` clauses use three-valued logic: a comparison
against NULL is unknown and an unknown condition does not select the row;
this is reflected in `sqlNeStr` / `sqlNotIn` returning `false` on NULL.
Timestamps (`strftime('%s','now')`) are passed in as an explicit `now`
argument.
-/

/-- A Python / SQLite value.  `.none` is Python `None` and SQL NULL;
`.list` only ever holds lists of strings here (the IP-address arrays),
which is the only list shape these code paths produce. -/
inductive PyVal where
  | none
  | str (s : String)
  | int (n : Int)
  | list (xs : List String)
deriving DecidableEq

/-- Python truthiness of a `PyVal` (`None`, `""`, `0`, `[]` are falsy). -/
def truthy : PyVal → Bool
  | PyVal.none => false
  | PyVal.str s => !(s == "")
  | PyVal.int n => !(n == 0)
  | PyVal.list xs => !xs.isEmpty

/-- Python `a or b`. -/
def pyOr (a b : PyVal) : PyVal :=
  if truthy a then a else b

/-- SQL `COALESCE(a, b)`. -/
def coalesce (a b : PyVal) : PyVal :=
  if a == PyVal.none then b else a

/-- `DBManager._first_ip` (db_manager.py lines 607-613): first element of a
non-empty list, a string unchanged, anything else `None`. -/
def first_ip : PyVal → PyVal
  | PyVal.list (x :: _) => PyVal.str x
  | PyVal.list [] => PyVal.none
  | PyVal.str s => PyVal.str s
  | PyVal.none => PyVal.none
  | PyVal.int _ => PyVal.none

/-- A Python dict, as an association list (keys unique in practice). -/
abbrev Rec : Type := List (String × PyVal)

/-- Python `d.get(k)`: the value at `k`, or `None` when absent. -/
def dget (d : Rec) (k : String) : PyVal :=
  match d.find? (fun kv => kv.1 == k) with
  | some kv => kv.2
  | Option.none => PyVal.none

/-- A row of the `instances` table (db_manager.py lines 42-59). -/
structure Row where
  instance_id : PyVal
  instance_name : PyVal
  status : PyVal
  region : PyVal
  zone : PyVal
  instance_type : PyVal
  image_id : PyVal
  image_name : PyVal
  platform : PyVal
  cpu : PyVal
  memory : PyVal
  private_ip : PyVal
  public_ip : PyVal
  expired_time : PyVal
  created_time : PyVal
  updated_at : PyVal
deriving DecidableEq

/-- The projection returned by `list_instances` / `get_instances`
(the SELECT lists every column except `updated_at`;
`created_time` precedes `expired_time` in the SELECT). -/
structure RowView where
  instance_id : PyVal
  instance_name : PyVal
  status : PyVal
  region : PyVal
  zone : PyVal
  instance_type : PyVal
  image_id : PyVal
  image_name : PyVal
  platform : PyVal
  cpu : PyVal
  memory : PyVal
  private_ip : PyVal
  public_ip : PyVal
  created_time : PyVal
  expired_time : PyVal
deriving DecidableEq

/-- Project a stored row onto the SELECTed columns. -/
def toView (r : Row) : RowView :=
  { instance_id := r.instance_id
    instance_name := r.instance_name
    status := r.status
    region := r.region
    zone := r.zone
    instance_type := r.instance_type
    image_id := r.image_id
    image_name := r.image_name
    platform := r.platform
    cpu := r.cpu
    memory := r.memory
    private_ip := r.private_ip
    public_ip := r.public_ip
    created_time := r.created_time
    expired_time := r.expired_time }

/-- The SQL parameter binding built for one input record by
`upsert_instances` (db_manager.py lines 166-182): each column value is a
`d.get("CamelCaseKey") or d.get("snake_case_key")` fallback, with the two
IP columns passed through `_first_ip`. -/
structure Bound where
  instance_id : PyVal
  instance_name : PyVal
  status : PyVal
  region : PyVal
  zone : PyVal
  instance_type : PyVal
  image_id : PyVal
  image_name : PyVal
  platform : PyVal
  cpu : PyVal
  memory : PyVal
  private_ip : PyVal
  public_ip : PyVal
  expired_time : PyVal
  created_time : PyVal
deriving DecidableEq

/-- Build the binding of db_manager.py lines 166-182 from an input dict. -/
def bindRec (d : Rec) : Bound :=
  { instance_id := pyOr (dget d "InstanceId") (dget d "instance_id")
    instance_name := pyOr (dget d "InstanceName") (dget d "instance_name")
    status := pyOr (dget d "InstanceState") (dget d "status")
    region := pyOr (dget d "Region") (dget d "region")
    zone := pyOr (dget d "Zone") (dget d "zone")
    instance_type := pyOr (dget d "InstanceType") (dget d "instance_type")
    image_id := pyOr (dget d "ImageId") (dget d "image_id")
    image_name := pyOr (dget d "ImageName") (dget d "image_name")
    platform := pyOr (dget d "Platform") (dget d "platform")
    cpu := pyOr (dget d "CPU") (dget d "cpu")
    memory := pyOr (dget d "Memory") (dget d "memory")
    private_ip := first_ip (pyOr (dget d "PrivateIpAddresses") (dget d "private_ip"))
    public_ip := first_ip (pyOr (dget d "PublicIpAddresses") (dget d "public_ip"))
    expired_time := pyOr (dget d "ExpiredTime") (dget d "expired_time")
    created_time := pyOr (dget d "CreatedTime") (dget d "created_time") }

/-- The freshly INSERTed row (no conflict): every column from the binding,
`updated_at = strftime('%s','now')`. -/
def rowOfBound (b : Bound) (now : Int) : Row :=
  { instance_id := b.instance_id
    instance_name := b.instance_name
    status := b.status
    region := b.region
    zone := b.zone
    instance_type := b.instance_type
    image_id := b.image_id
    image_name := b.image_name
    platform := b.platform
    cpu := b.cpu
    memory := b.memory
    private_ip := b.private_ip
    public_ip := b.public_ip
    expired_time := b.expired_time
    created_time := b.created_time
    updated_at := PyVal.int now }

/-- The `ON CONFLICT(instance_id) DO UPDATE SET` clause
(db_manager.py lines 149-164): every column is overwritten with the
excluded (incoming) value except
`expired_time = COALESCE(excluded.expired_time, instances.expired_time)`
and `created_time = COALESCE(instances.created_time, excluded.created_time)`;
the primary key is not in the SET list. -/
def mergeRow (b : Bound) (now : Int) (old : Row) : Row :=
  { instance_id := old.instance_id
    instance_name := b.instance_name
    status := b.status
    region := b.region
    zone := b.zone
    instance_type := b.instance_type
    image_id := b.image_id
    image_name := b.image_name
    platform := b.platform
    cpu := b.cpu
    memory := b.memory
    private_ip := b.private_ip
    public_ip := b.public_ip
    expired_time := coalesce b.expired_time old.expired_time
    created_time := coalesce old.created_time b.created_time
    updated_at := PyVal.int now }

/-- Rewrite the first row satisfying `p` with `f` (the `instances` table
has at most one row per non-NULL `instance_id`, so the conflicting row is
unique; this models the single-row DO UPDATE). -/
def updateFirst (p : Row → Bool) (f : Row → Row) : List Row → List Row
  | [] => []
  | r :: rest => if p r then f r :: rest else r :: updateFirst p f rest

/-- One `INSERT ... ON CONFLICT(instance_id) DO UPDATE` execution:
a conflict fires only when the incoming key is non-NULL and a row with the
same key exists (SQL NULL never conflicts with NULL); otherwise the row is
appended. -/
def upsertOne (rec : Rec) (now : Int) (t : List Row) : List Row :=
  let b := bindRec rec
  if !(b.instance_id == PyVal.none) && t.any (fun r => r.instance_id == b.instance_id) then
    updateFirst (fun r => r.instance_id == b.instance_id) (fun r => mergeRow b now r) t
  else t ++ [rowOfBound b now]

/-- `DBManager.upsert_instances` (db_manager.py lines 140-184): one
upsert per input record, in order. -/
def upsert_instances (records : List Rec) (now : Int) (t : List Row) : List Row :=
  records.foldl (fun acc rec => upsertOne rec now acc) t

/-- SQL `v != 'lit'` under three-valued logic: NULL compares unknown
(row not selected); a non-text storage class is never equal to a text
literal. -/
def sqlNeStr (v : PyVal) (s : String) : Bool :=
  match v with
  | PyVal.none => false
  | PyVal.str t => !(t == s)
  | PyVal.int _ => true
  | PyVal.list _ => true

/-- `DBManager.mark_all_instances_as_deleted` (db_manager.py lines
186-190): `UPDATE instances SET status='-1', updated_at=now WHERE
status != '-1'`. -/
def mark_all_instances_as_deleted (now : Int) (t : List Row) : List Row :=
  t.map (fun r =>
    if sqlNeStr r.status "-1" then
      { r with status := PyVal.str "-1", updated_at := PyVal.int now }
    else r)

/-- Option String to bound SQL value (`None` binds NULL). -/
def optVal : Option String → PyVal
  | Option.none => PyVal.none
  | some s => PyVal.str s

/-- `DBManager.update_instance_status` (db_manager.py lines 192-203):
`UPDATE instances SET status = ?, public_ip = COALESCE(?, public_ip),
private_ip = COALESCE(?, private_ip), updated_at = now WHERE
instance_id = ?`. -/
def update_instance_status (instance_id status : String)
    (public_ip private_ip : Option String) (now : Int) (t : List Row) : List Row :=
  t.map (fun r =>
    if r.instance_id == PyVal.str instance_id then
      { r with status := PyVal.str status
               public_ip := coalesce (optVal public_ip) r.public_ip
               private_ip := coalesce (optVal private_ip) r.private_ip
               updated_at := PyVal.int now }
    else r)

/-- SQL `x NOT IN (v1, ..., vn)` under three-valued logic: unknown (hence
not selected) when `x` is NULL, or when no element matches but some
element is NULL. -/
def sqlNotIn (x : PyVal) (vs : List PyVal) : Bool :=
  if x == PyVal.none then false
  else if vs.any (fun v => v == x) then false
  else if vs.any (fun v => v == PyVal.none) then false
  else true

/-- `DBManager.soft_delete_missing` (db_manager.py lines 205-217): early
return on `None` or an empty list, otherwise `UPDATE instances SET
status='-1', updated_at=now WHERE status != '-1' AND instance_id NOT IN
(...)`. -/
def soft_delete_missing (valid_ids : Option (List PyVal)) (now : Int)
    (t : List Row) : List Row :=
  match valid_ids with
  | Option.none => t
  | some ids =>
    if ids.isEmpty then t
    else t.map (fun r =>
      if sqlNeStr r.status "-1" && sqlNotIn r.instance_id ids then
        { r with status := PyVal.str "-1", updated_at := PyVal.int now }
      else r)

/-- SQLite ordering of stored values: NULL < numeric < text (< blob);
within a class the natural order. -/
def sqliteLe (a b : PyVal) : Bool :=
  match a, b with
  | PyVal.none, _ => true
  | _, PyVal.none => false
  | PyVal.int m, PyVal.int n => decide (m ≤ n)
  | PyVal.int _, _ => true
  | _, PyVal.int _ => false
  | PyVal.str s, PyVal.str t => decide (s ≤ t)
  | PyVal.str _, _ => true
  | _, PyVal.str _ => false
  | PyVal.list _, PyVal.list _ => true

/-- Stable insertion for `ORDER BY updated_at DESC`. -/
def insertByUpdatedDesc (r : Row) : List Row → List Row
  | [] => [r]
  | s :: rest =>
    if sqliteLe s.updated_at r.updated_at then r :: s :: rest
    else s :: insertByUpdatedDesc r rest

/-- Stable sort for `ORDER BY updated_at DESC`. -/
def sortByUpdatedDesc : List Row → List Row
  | [] => []
  | r :: rest => insertByUpdatedDesc r (sortByUpdatedDesc rest)

/-- The `WHERE status != '-1' OR status IS NULL` filter of
`list_instances`. -/
def liveRow (r : Row) : Bool :=
  sqlNeStr r.status "-1" || (r.status == PyVal.none)

/-- `DBManager.list_instances` (db_manager.py lines 219-237):
`_lock.acquire(blocking=False)`; when another party holds the write lock
the acquire fails and the call returns `[]` at once (no exception, no
wait); otherwise `SELECT <all columns but updated_at> FROM instances WHERE
status != '-1' OR status IS NULL ORDER BY updated_at DESC`.  `lockHeld`
states whether another party holds `_lock` at the call. -/
def list_instances (lockHeld : Bool) (t : List Row) : List RowView :=
  if lockHeld then []
  else (sortByUpdatedDesc (t.filter liveRow)).map toView

/-- `DBManager.get_instances` (db_manager.py lines 239-258): `[]` on an
empty/absent id list; `_lock.acquire(blocking=False)` returning `[]` when
another party holds the lock; otherwise `SELECT ... WHERE instance_id IN
(...)` (no ORDER BY, no status filter). -/
def get_instances (lockHeld : Bool) (instance_ids : List String)
    (t : List Row) : List RowView :=
  if instance_ids.isEmpty then []
  else if lockHeld then []
  else (t.filter (fun r => instance_ids.any (fun v => r.instance_id == PyVal.str v))).map toView

/-- A row of the `zones` table (db_manager.py lines 92-101); `zone` is the
primary key. -/
structure ZoneRow where
  zone : PyVal
  region : PyVal
  zone_name : PyVal
  zone_state : PyVal
  updated_at : PyVal
deriving DecidableEq

/-- The INSERT loop of `replace_zones` (db_manager.py lines 421-428):
each row is `(z.get("Zone"), region, z.get("ZoneName"), z.get("ZoneState"),
now)`; since `zone` is the primary key, inserting a zone key that is
already present (and non-NULL) raises an IntegrityError, which aborts the
transaction. -/
def insertZones (region : String) (now : Int) :
    List Rec → List ZoneRow → Except String (List ZoneRow)
  | [], acc => Except.ok acc
  | z :: rest, acc =>
    let row : ZoneRow :=
      { zone := dget z "Zone"
        region := PyVal.str region
        zone_name := dget z "ZoneName"
        zone_state := dget z "ZoneState"
        updated_at := PyVal.int now }
    if !(row.zone == PyVal.none) && acc.any (fun x => x.zone == row.zone) then
      Except.error "UNIQUE constraint failed: zones.zone"
    else insertZones region now rest (acc ++ [row])

/-- `DBManager.replace_zones` (db_manager.py lines 415-429): early return
when `region` is falsy (`None` or `""`); otherwise, in one transaction,
`DELETE FROM zones WHERE region = ?` then insert the fresh rows.
`.error` models the raised IntegrityError. -/
def replace_zones (region : Option String) (zones : List Rec) (now : Int)
    (t : List ZoneRow) : Except String (List ZoneRow) :=
  match region with
  | Option.none => Except.ok t
  | some r =>
    if r == "" then Except.ok t
    else insertZones r now zones (t.filter (fun zr => !(zr.region == PyVal.str r)))

/-- The `zones` table after a `replace_zones` call: the new contents on
success, the original contents on failure (the `with conn` transaction is
rolled back when the INSERT raises). -/
def zonesAfter (region : Option String) (zones : List Rec) (now : Int)
    (t : List ZoneRow) : List ZoneRow :=
  match replace_zones region zones now t with
  | Except.ok t2 => t2
  | Except.error _ => t

/-- Display-IP selection in `CVMManager.get_instances`
(cvm_manager.py lines 493-496): the first public IP if any, else the
first private IP, else the empty string (the lists are already
`getattr(..., []) or []`-normalised). -/
def cvm_select_display_ip (publicIps privateIps : List String) : String :=
  match publicIps with
  | p :: _ => p
  | [] =>
    match privateIps with
    | q :: _ => q
    | [] => ""

/-- Python truthiness of the `instance_ids` argument of
`CVMManager.get_instances` (`None` and `[]` are falsy). -/
def idsFalsy : Option (List String) → Bool
  | Option.none => true
  | some l => l.isEmpty

/-- The cache-write step of `CVMManager.get_instances`
(cvm_manager.py lines 517-525): always `upsert_instances` on the
constructed records; then, only when no ID filter was given
(`if not instance_ids:`), `soft_delete_missing` with the accumulated
`valid_ids = [ins["InstanceId"] for ins in instances]`. -/
def cvm_cache_write (instance_ids : Option (List String)) (records : List Rec)
    (now : Int) (t : List Row) : List Row :=
  let t1 := upsert_instances records now t
  if idsFalsy instance_ids then
    soft_delete_missing (some (records.map (fun r => dget r "InstanceId"))) now t1
  else t1

/-- Does the first list start with the second as an initial segment. -/
def listStartsWith : List Char → List Char → Bool
  | _, [] => true
  | [], _ :: _ => false
  | a :: as, b :: bs => a == b && listStartsWith as bs

/-- Does the first list contain the second as a contiguous segment. -/
def listContainsSeg (hay needle : List Char) : Bool :=
  match hay with
  | [] => needle.isEmpty
  | _ :: rest => listStartsWith hay needle || listContainsSeg rest needle

/-- Substring test (Python `needle in hay`). -/
def containsSubstr (needle hay : String) : Bool :=
  listContainsSeg hay.toList needle.toList

/-- The disk-type-unsupported test of `CVMManager.create`
(cvm_manager.py lines 339-342) on `str(e)`. -/
def is_disk_type_error (s : String) : Bool :=
  containsSubstr "19045" s ||
  containsSubstr "云硬盘类型" s ||
  containsSubstr "云服务器不支持所需云硬盘类型" s ||
  (containsSubstr "InvalidParameter" s && containsSubstr "disk" s.toLower)

/-- The fixed fallback priority list (cvm_manager.py line 347). -/
def fallbackPriority : List String :=
  ["CLOUD_PREMIUM", "CLOUD_SSD", "CLOUD_BSSD", "CLOUD_HSSD"]

/-- Outcome of the guarded create block: a successful response, or a
raised exception message; both carry the warnings recorded so far and the
`tried_types` list (whose first element is the raw `system_disk_type`
argument, possibly `None`). -/
inductive CreateResult (α : Type) where
  | ok (resp : α) (warnings : List String) (tried : List (Option String))
  | raised (msg : String) (warnings : List String) (tried : List (Option String))
deriving DecidableEq

/-- Python f-string rendering of a possibly-`None` disk type. -/
def optStr : Option String → String
  | Option.none => "None"
  | some s => s

/-- The warning recorded before each fallback attempt
(cvm_manager.py line 353), built from `tried_types[-1]` and the fallback
type about to be tried. -/
def fallbackWarn (last : Option String) (fb : String) : String :=
  "磁盘类型 " ++ optStr last ++ " 在当前区域/可用区不支持，已尝试 " ++ fb

/-- The fallback loop of `CVMManager.create` (cvm_manager.py lines
351-366): for each remaining fallback type, record a warning, retry; on
success break; on failure append the type to `tried_types` and, when the
type equals the last element of the fallback list, re-raise the original
error.  An exhausted loop (possible only when the fallback list was empty)
leaves `resp = None`, which line 411 turns into a ValueError. -/
def fbLoop (attempt : String → Except String α) (origErr : String)
    (lastF : String) :
    List String → List (Option String) → List String → CreateResult α
  | [], tried, warns => CreateResult.raised "实例创建失败，未返回实例ID" warns tried
  | f :: rest, tried, warns =>
    let warns2 := warns ++ [fallbackWarn (tried.getLastD Option.none) f]
    match attempt f with
    | Except.ok resp => CreateResult.ok resp warns2 tried
    | Except.error _ =>
      let tried2 := tried ++ [some f]
      if f == lastF then CreateResult.raised origErr warns2 tried2
      else fbLoop attempt origErr lastF rest tried2 warns2

/-- The guarded RunInstances block of `CVMManager.create` (cvm_manager.py
lines 329-369): the first attempt uses
`system_disk_type or "CLOUD_PREMIUM"` (line 313) while `tried_types`
records the raw argument; on a disk-type error the fallback list is the
priority list minus the types already tried; a non-disk-type error is
re-raised unchanged.  `attempt d` stands for `self.client.RunInstances`
with `req.SystemDisk.DiskType = d`. -/
def create_disk_attempts (attempt : String → Except String α)
    (system_disk_type : Option String) : CreateResult α :=
  let diskType :=
    match system_disk_type with
    | some s => if s == "" then "CLOUD_PREMIUM" else s
    | Option.none => "CLOUD_PREMIUM"
  let tried0 : List (Option String) := [system_disk_type]
  match attempt diskType with
  | Except.ok resp => CreateResult.ok resp [] tried0
  | Except.error e =>
    if is_disk_type_error e then
      let fallback_types := fallbackPriority.filter (fun ft => !(tried0.contains (some ft)))
      fbLoop attempt e (fallback_types.getLastD "") fallback_types tried0 []
    else CreateResult.raised e [] tried0

/-- The message of a raised outcome, if any. -/
def CreateResult.raisedMsg : CreateResult α → Option String
  | CreateResult.raised m _ _ => some m
  | CreateResult.ok _ _ _ => Option.none

/-- The `tried_types` list of an outcome. -/
def CreateResult.triedTypes : CreateResult α → List (Option String)
  | CreateResult.raised _ _ tr => tr
  | CreateResult.ok _ _ tr => tr

/-- The warnings recorded by an outcome. -/
def CreateResult.warningsOf : CreateResult α → List String
  | CreateResult.raised _ w _ => w
  | CreateResult.ok _ w _ => w

/-! ## Helper lemmas -/

theorem mem_insertByUpdatedDesc (r x : Row) (l : List Row) :
    x ∈ insertByUpdatedDesc r l ↔ x = r ∨ x ∈ l := by
  induction l with
  | nil => simp [insertByUpdatedDesc]
  | cons s rest ih =>
    by_cases h : sqliteLe s.updated_at r.updated_at = true
    · simp [insertByUpdatedDesc, h]
    · simp only [insertByUpdatedDesc, if_neg h, List.mem_cons, ih]
      tauto

theorem mem_sortByUpdatedDesc (x : Row) (l : List Row) :
    x ∈ sortByUpdatedDesc l ↔ x ∈ l := by
  induction l with
  | nil => simp [sortByUpdatedDesc]
  | cons r rest ih =>
    simp [sortByUpdatedDesc, mem_insertByUpdatedDesc, ih]

theorem updateFirst_spec (p : Row → Bool) (f : Row → Row) (r : Row) :
    ∀ (pre post : List Row), (∀ x ∈ pre, p x = false) → p r = true →
      updateFirst p f (pre ++ r :: post) = pre ++ f r :: post := by
  intro pre
  induction pre with
  | nil =>
    intro post _ hr
    simp [updateFirst, hr]
  | cons x rest ih =>
    intro post hpre hr
    have hx : p x = false := hpre x (by simp)
    simp only [List.cons_append, updateFirst, hx]
    simp only [Bool.false_eq_true, if_false]
    exact congrArg (x :: ·) (ih post (fun y hy => hpre y (by simp [hy])) hr)

theorem mem_updateFirst_of_ne (p : Row → Bool) (f : Row → Row) (row : Row)
    (hp : p row = false) : ∀ t : List Row, row ∈ t → row ∈ updateFirst p f t := by
  intro t
  induction t with
  | nil => intro h; exact absurd h (by simp)
  | cons x rest ih =>
    intro hmem
    by_cases hx : p x = true
    · simp only [updateFirst, hx, if_true]
      rcases List.mem_cons.mp hmem with rfl | h
      · rw [hp] at hx; exact absurd hx (by simp)
      · exact List.mem_cons_of_mem _ h
    · simp only [updateFirst, hx, if_false]
      rcases List.mem_cons.mp hmem with rfl | h
      · exact List.mem_cons_self _ _
      · exact List.mem_cons_of_mem _ (ih h)

theorem upsertOne_conflict (rec : Rec) (now : Int) (pre post : List Row)
    (r : Row) (i : String)
    (hid : (bindRec rec).instance_id = PyVal.str i)
    (hpre : ∀ x ∈ pre, ¬ x.instance_id = PyVal.str i)
    (hr : r.instance_id = PyVal.str i) :
    upsertOne rec now (pre ++ r :: post) =
      pre ++ mergeRow (bindRec rec) now r :: post := by
  have hany : (pre ++ r :: post).any
      (fun x => x.instance_id == (bindRec rec).instance_id) = true := by
    refine List.any_eq_true.mpr ⟨r, by simp, ?_⟩
    rw [hr, hid]
    simp
  have hnn : (!((bindRec rec).instance_id == PyVal.none)) = true := by
    rw [hid]
    rfl
  simp only [upsertOne, hany, hnn, Bool.true_and, if_true]
  refine updateFirst_spec _ _ r pre post ?_ ?_
  · intro x hx
    have hx2 := hpre x hx
    rw [hid]
    simpa using hx2
  · rw [hr, hid]
    simp

theorem mem_upsertOne_of_ne (rec : Rec) (now : Int) (row : Row) (t : List Row)
    (hne : ¬ row.instance_id = (bindRec rec).instance_id) (hmem : row ∈ t) :
    row ∈ upsertOne rec now t := by
  unfold upsertOne
  by_cases hc : (!((bindRec rec).instance_id == PyVal.none) &&
      t.any (fun r => r.instance_id == (bindRec rec).instance_id)) = true
  · rw [if_pos hc]
    exact mem_updateFirst_of_ne _ _ row (by simpa using hne) t hmem
  · rw [if_neg hc]
    exact List.mem_append_left _ hmem

theorem mem_upsert_instances_of_ne (records : List Rec) (now : Int) (row : Row) :
    ∀ t : List Row,
      (∀ rec ∈ records, ¬ row.instance_id = (bindRec rec).instance_id) →
      row ∈ t → row ∈ upsert_instances records now t := by
  induction records with
  | nil => intro t _ hmem; exact hmem
  | cons rec rest ih =>
    intro t hne hmem
    have h1 : row ∈ upsertOne rec now t :=
      mem_upsertOne_of_ne rec now row t (hne rec (by simp)) hmem
    exact ih (upsertOne rec now t)
      (fun rc hrc => hne rc (by simp [hrc])) h1

/-! ## Claim theorems -/

/-- C4 (soft-delete safety): calling `soft_delete_missing` with `None` or
with an empty list is a no-op — the table is returned unchanged, so every
row's status (and every other field) equals its value before the call and
no row is newly marked with the soft-delete sentinel `'-1'`. -/
theorem C4_soft_delete_safety (now : Int) (t : List Row) :
    soft_delete_missing Option.none now t = t ∧
    soft_delete_missing (some []) now t = t := by
  constructor
  · rfl
  · simp [soft_delete_missing]

/-- C7 (non-blocking read under contention): while another party holds the
store's write lock, `list_instances` and `get_instances` return the empty
list.  In the model they are total functions into `List RowView`, so no
exception is raised; the Python code reaches `return []` directly from the
failed non-blocking acquire without waiting. -/
theorem C7_nonblocking_read (t : List Row) (ids : List String) :
    list_instances true t = [] ∧ get_instances true ids t = [] := by
  refine ⟨rfl, ?_⟩
  unfold get_instances
  by_cases h : ids.isEmpty <;> simp [h]

/-- C9 (status update preserves IPs): `update_instance_status` with both
optional IP arguments absent rewrites only the matching rows' status and
update timestamp, leaving `public_ip` and `private_ip` (and every other
field) unchanged; with non-null IP arguments the corresponding IP fields
are overwritten with them. -/
theorem C9_status_update_preserves_ips (iid st : String) (now : Int)
    (t : List Row) (p q : String) :
    update_instance_status iid st Option.none Option.none now t =
      t.map (fun r =>
        if r.instance_id == PyVal.str iid then
          { r with status := PyVal.str st, updated_at := PyVal.int now }
        else r) ∧
    update_instance_status iid st (some p) (some q) now t =
      t.map (fun r =>
        if r.instance_id == PyVal.str iid then
          { r with status := PyVal.str st, public_ip := PyVal.str p,
                   private_ip := PyVal.str q, updated_at := PyVal.int now }
        else r) := by
  constructor <;> simp [update_instance_status, coalesce, optVal]

/-- C2 (sticky fields): upserting a record for an existing instance row
(`r`, the first row with key `i`) whose bound `expired_time` and
`created_time` are absent (NULL) rewrites exactly that row to
`mergeRow (bindRec rec) now r`, whose `expired_time`/`created_time` keep
the previously stored non-null values while every other column
(name, status, region, zone, type, image, platform, cpu, memory, IPs)
takes the input record's bound value. -/
theorem C2_sticky_fields (rec : Rec) (now : Int) (pre post : List Row)
    (r : Row) (i : String)
    (hid : (bindRec rec).instance_id = PyVal.str i)
    (hr : r.instance_id = PyVal.str i)
    (hpre : ∀ x ∈ pre, ¬ x.instance_id = PyVal.str i)
    (hexp : (bindRec rec).expired_time = PyVal.none)
    (hcre : (bindRec rec).created_time = PyVal.none)
    (hre : ¬ r.expired_time = PyVal.none)
    (hrc : ¬ r.created_time = PyVal.none) :
    upsert_instances [rec] now (pre ++ r :: post) =
      pre ++ mergeRow (bindRec rec) now r :: post ∧
    (mergeRow (bindRec rec) now r).expired_time = r.expired_time ∧
    (mergeRow (bindRec rec) now r).created_time = r.created_time ∧
    (mergeRow (bindRec rec) now r).instance_id = r.instance_id ∧
    (mergeRow (bindRec rec) now r).instance_name = (bindRec rec).instance_name ∧
    (mergeRow (bindRec rec) now r).status = (bindRec rec).status ∧
    (mergeRow (bindRec rec) now r).region = (bindRec rec).region ∧
    (mergeRow (bindRec rec) now r).zone = (bindRec rec).zone ∧
    (mergeRow (bindRec rec) now r).instance_type = (bindRec rec).instance_type ∧
    (mergeRow (bindRec rec) now r).image_id = (bindRec rec).image_id ∧
    (mergeRow (bindRec rec) now r).image_name = (bindRec rec).image_name ∧
    (mergeRow (bindRec rec) now r).platform = (bindRec rec).platform ∧
    (mergeRow (bindRec rec) now r).cpu = (bindRec rec).cpu ∧
    (mergeRow (bindRec rec) now r).memory = (bindRec rec).memory ∧
    (mergeRow (bindRec rec) now r).private_ip = (bindRec rec).private_ip ∧
    (mergeRow (bindRec rec) now r).public_ip = (bindRec rec).public_ip ∧
    (mergeRow (bindRec rec) now r).updated_at = PyVal.int now := by
  refine ⟨?_, ?_, ?_, rfl, rfl, rfl, rfl, rfl, rfl, rfl, rfl, rfl, rfl, rfl,
    rfl, rfl, rfl⟩
  · show upsertOne rec now (pre ++ r :: post) = _
    exact upsertOne_conflict rec now pre post r i hid hpre hr
  · show coalesce (bindRec rec).expired_time r.expired_time = r.expired_time
    simp [coalesce, hexp]
  · show coalesce r.created_time (bindRec rec).created_time = r.created_time
    simp [coalesce, hcre, beq_iff_eq, hrc]

/-- Existing row used by the C2 witness. -/
def rW2 : Row :=
  { instance_id := PyVal.str "ins-1", instance_name := PyVal.str "old-name"
    status := PyVal.str "STOPPED", region := PyVal.str "ap-guangzhou"
    zone := PyVal.str "ap-guangzhou-3", instance_type := PyVal.str "S5.SMALL2"
    image_id := PyVal.str "img-1", image_name := PyVal.str "debian"
    platform := PyVal.str "LINUX", cpu := PyVal.int 2, memory := PyVal.int 4
    private_ip := PyVal.str "10.0.0.2", public_ip := PyVal.str "1.2.3.4"
    expired_time := PyVal.str "2026-01-01", created_time := PyVal.str "2025-01-01"
    updated_at := PyVal.int 1 }

/-- Input record used by the C2 witness: no expired/created keys. -/
def recW2 : Rec :=
  [("InstanceId", PyVal.str "ins-1"), ("InstanceState", PyVal.str "RUNNING"),
   ("InstanceName", PyVal.str "new-name")]

theorem C2_sticky_fields_witness :
    upsert_instances [recW2] 9 [rW2] = [mergeRow (bindRec recW2) 9 rW2] ∧
    (mergeRow (bindRec recW2) 9 rW2).expired_time = rW2.expired_time ∧
    (mergeRow (bindRec recW2) 9 rW2).created_time = rW2.created_time ∧
    (mergeRow (bindRec recW2) 9 rW2).instance_id = rW2.instance_id ∧
    (mergeRow (bindRec recW2) 9 rW2).instance_name = (bindRec recW2).instance_name ∧
    (mergeRow (bindRec recW2) 9 rW2).status = (bindRec recW2).status ∧
    (mergeRow (bindRec recW2) 9 rW2).region = (bindRec recW2).region ∧
    (mergeRow (bindRec recW2) 9 rW2).zone = (bindRec recW2).zone ∧
    (mergeRow (bindRec recW2) 9 rW2).instance_type = (bindRec recW2).instance_type ∧
    (mergeRow (bindRec recW2) 9 rW2).image_id = (bindRec recW2).image_id ∧
    (mergeRow (bindRec recW2) 9 rW2).image_name = (bindRec recW2).image_name ∧
    (mergeRow (bindRec recW2) 9 rW2).platform = (bindRec recW2).platform ∧
    (mergeRow (bindRec recW2) 9 rW2).cpu = (bindRec recW2).cpu ∧
    (mergeRow (bindRec recW2) 9 rW2).memory = (bindRec recW2).memory ∧
    (mergeRow (bindRec recW2) 9 rW2).private_ip = (bindRec recW2).private_ip ∧
    (mergeRow (bindRec recW2) 9 rW2).public_ip = (bindRec recW2).public_ip ∧
    (mergeRow (bindRec recW2) 9 rW2).updated_at = PyVal.int 9 :=
  C2_sticky_fields recW2 9 [] [] rW2 "ins-1" (by decide) (by decide)
    (by intro x hx; exact absurd hx (List.not_mem_nil x))
    (by decide) (by decide) (by decide) (by decide)

/-- Stored row used by the C3 counterexample: a known private and public
IP. -/
def rowC3 : Row :=
  { instance_id := PyVal.str "ins-cx", instance_name := PyVal.str "n"
    status := PyVal.str "RUNNING", region := PyVal.str "ap-guangzhou"
    zone := PyVal.str "ap-guangzhou-3", instance_type := PyVal.str "S5.SMALL2"
    image_id := PyVal.str "img-1", image_name := PyVal.str "debian"
    platform := PyVal.str "LINUX", cpu := PyVal.int 2, memory := PyVal.int 4
    private_ip := PyVal.str "10.0.0.5", public_ip := PyVal.str "1.2.3.4"
    expired_time := PyVal.str "2026-01-01", created_time := PyVal.str "2025-01-01"
    updated_at := PyVal.int 1 }

/-- Remote record used by the C3 counterexample: same instance, but the
IP lists (`PrivateIpAddresses`/`PublicIpAddresses`) are omitted
entirely. -/
def recC3 : Rec :=
  [("InstanceId", PyVal.str "ins-cx"), ("InstanceState", PyVal.str "RUNNING")]

/-- C3 counterexample: the stored row has non-null IPs, the incoming
record omits both IP lists, yet after `upsert_instances` both IP columns
are NULL — the previously stored IPs are cleared, not retained. -/
theorem C3_counterexample :
    rowC3.private_ip = PyVal.str "10.0.0.5" ∧
    rowC3.public_ip = PyVal.str "1.2.3.4" ∧
    (upsert_instances [recC3] 9 [rowC3]).map Row.private_ip = [PyVal.none] ∧
    (upsert_instances [recC3] 9 [rowC3]).map Row.public_ip = [PyVal.none] := by
  refine ⟨rfl, rfl, ?_, ?_⟩ <;> rfl

/-- C3 amended: `upsert_instances` treats the IP columns like every other
non-sticky column — a record whose IP lists are absent binds NULL through
`_first_ip` and overwrites the stored `private_ip`/`public_ip` with NULL
(only `expired_time`/`created_time` are sticky); the display-IP selection
of `CVMManager.get_instances` does prefer the public address over the
private one. -/
theorem C3_ip_overwrite_amended (rec : Rec) (now : Int) (pre post : List Row)
    (r : Row) (i : String) (p : String) (ps qs : List String)
    (hid : (bindRec rec).instance_id = PyVal.str i)
    (hr : r.instance_id = PyVal.str i)
    (hpre : ∀ x ∈ pre, ¬ x.instance_id = PyVal.str i)
    (h1 : dget rec "PrivateIpAddresses" = PyVal.none)
    (h2 : dget rec "private_ip" = PyVal.none)
    (h3 : dget rec "PublicIpAddresses" = PyVal.none)
    (h4 : dget rec "public_ip" = PyVal.none) :
    upsert_instances [rec] now (pre ++ r :: post) =
      pre ++ mergeRow (bindRec rec) now r :: post ∧
    (mergeRow (bindRec rec) now r).private_ip = PyVal.none ∧
    (mergeRow (bindRec rec) now r).public_ip = PyVal.none ∧
    cvm_select_display_ip (p :: ps) qs = p := by
  refine ⟨upsertOne_conflict rec now pre post r i hid hpre hr, ?_, ?_, rfl⟩
  · show (bindRec rec).private_ip = PyVal.none
    simp [bindRec, h1, h2, pyOr, truthy, first_ip]
  · show (bindRec rec).public_ip = PyVal.none
    simp [bindRec, h3, h4, pyOr, truthy, first_ip]

theorem C3_ip_overwrite_amended_witness :
    upsert_instances [recC3] 9 [rowC3] = [mergeRow (bindRec recC3) 9 rowC3] ∧
    (mergeRow (bindRec recC3) 9 rowC3).private_ip = PyVal.none ∧
    (mergeRow (bindRec recC3) 9 rowC3).public_ip = PyVal.none ∧
    cvm_select_display_ip ("1.2.3.4" :: []) ["10.0.0.5"] = "1.2.3.4" :=
  C3_ip_overwrite_amended recC3 9 [] [] rowC3 "ins-cx" "1.2.3.4" [] ["10.0.0.5"]
    (by decide) (by decide)
    (by intro x hx; exact absurd hx (List.not_mem_nil x))
    (by decide) (by decide) (by decide) (by decide)

/-- Row with a NULL status, used for C10. -/
def rowC10 : Row :=
  { instance_id := PyVal.str "ins-null", instance_name := PyVal.none
    status := PyVal.none, region := PyVal.none, zone := PyVal.none
    instance_type := PyVal.none, image_id := PyVal.none
    image_name := PyVal.none, platform := PyVal.none, cpu := PyVal.none
    memory := PyVal.none, private_ip := PyVal.none, public_ip := PyVal.none
    expired_time := PyVal.none, created_time := PyVal.none
    updated_at := PyVal.int 3 }

/-- C10 counterexample: `mark_all_instances_as_deleted` does NOT match a
NULL-status row — under SQL three-valued logic `status != '-1'` is
unknown on NULL, so the row is left untouched (status stays NULL, it is
not set to `'-1'`), refuting the claim's assertion that the
`status != '-1'` filter also matches such rows. -/
theorem C10_counterexample :
    rowC10.status = PyVal.none ∧
    mark_all_instances_as_deleted 7 [rowC10] = [rowC10] ∧
    ¬ (mark_all_instances_as_deleted 7 [rowC10]).map Row.status
        = [PyVal.str "-1"] := by
  refine ⟨rfl, rfl, ?_⟩
  decide

/-- C10 amended: a NULL-status row is treated as live by
`list_instances` (the `OR status IS NULL` arm makes it visible to the
UI), but `mark_all_instances_as_deleted` and `soft_delete_missing` do NOT
match such rows — their `status != '-1'` predicate is unknown on NULL, so
the row survives both updates unchanged. -/
theorem C10_null_status_amended (t : List Row) (r : Row) (now : Int)
    (ids : List PyVal) (hmem : r ∈ t) (hnull : r.status = PyVal.none) :
    toView r ∈ list_instances false t ∧
    r ∈ mark_all_instances_as_deleted now t ∧
    r ∈ soft_delete_missing (some ids) now t := by
  refine ⟨?_, ?_, ?_⟩
  · unfold list_instances
    rw [if_neg (by simp)]
    refine List.mem_map_of_mem toView ?_
    rw [mem_sortByUpdatedDesc]
    refine List.mem_filter.mpr ⟨hmem, ?_⟩
    simp [liveRow, hnull, sqlNeStr]
  · unfold mark_all_instances_as_deleted
    refine List.mem_map.mpr ⟨r, hmem, ?_⟩
    simp [hnull, sqlNeStr]
  · unfold soft_delete_missing
    by_cases h : ids.isEmpty
    · simp only [h, if_true]
      exact hmem
    · simp only [h, Bool.false_eq_true, if_false]
      refine List.mem_map.mpr ⟨r, hmem, ?_⟩
      simp [hnull, sqlNeStr]

theorem C10_null_status_amended_witness :
    toView rowC10 ∈ list_instances false [rowC10] ∧
    rowC10 ∈ mark_all_instances_as_deleted 7 [rowC10] ∧
    rowC10 ∈ soft_delete_missing (some [PyVal.str "other"]) 7 [rowC10] :=
  C10_null_status_amended [rowC10] rowC10 7 [PyVal.str "other"]
    (List.mem_singleton.mpr rfl) rfl

theorem insertZones_filter_frame (X Y : String) (hXY : ¬ X = Y) (now : Int)
    (zs : List Rec) :
    ∀ acc t2 : List ZoneRow,
      insertZones Y now zs acc = Except.ok t2 →
      t2.filter (fun zr => zr.region == PyVal.str X) =
        acc.filter (fun zr => zr.region == PyVal.str X) := by
  induction zs with
  | nil =>
    intro acc t2 h
    simp only [insertZones] at h
    cases h
    rfl
  | cons z rest ih =>
    intro acc t2 h
    simp only [insertZones] at h
    split at h
    · cases h
    · have h2 := ih _ t2 h
      rw [h2, List.filter_append]
      have hone : List.filter (fun zr => zr.region == PyVal.str X)
          ([{ zone := dget z "Zone", region := PyVal.str Y,
              zone_name := dget z "ZoneName", zone_state := dget z "ZoneState",
              updated_at := PyVal.int now }] : List ZoneRow) = [] := by
        have hbe : ((PyVal.str Y == PyVal.str X) : Bool) = false := by
          rw [beq_eq_false_iff_ne]
          exact fun hyx => hXY (PyVal.str.inj hyx).symm
        rw [List.filter_cons_of_neg]
        · rfl
        · show ¬ ((PyVal.str Y == PyVal.str X) : Bool) = true
          simp [hbe]
      rw [hone, List.append_nil]

theorem filter_region_of_delete (X Y : String) (hXY : ¬ X = Y)
    (t : List ZoneRow) :
    (t.filter (fun zr => !(zr.region == PyVal.str Y))).filter
        (fun zr => zr.region == PyVal.str X) =
      t.filter (fun zr => zr.region == PyVal.str X) := by
  rw [List.filter_filter]
  refine List.filter_congr ?_
  intro zr _
  cases hb : (zr.region == PyVal.str X)
  · simp [hb]
  · have hz : zr.region = PyVal.str X := by simpa [beq_iff_eq] using hb
    simpa [hz] using hXY

/-- C8 (zone-replace isolation): for distinct regions `X ≠ Y`,
the zone rows cached for `X` are exactly the same before and after
`replace_zones Y zones` — whether the transaction commits or is rolled
back by a primary-key violation — and a call with a `None` or empty
region is a no-op on the whole table. -/
theorem C8_zone_replace_isolation (X Y : String) (zones : List Rec)
    (now : Int) (t : List ZoneRow) (hXY : X ≠ Y) :
    (zonesAfter (some Y) zones now t).filter
        (fun zr => zr.region == PyVal.str X) =
      t.filter (fun zr => zr.region == PyVal.str X) ∧
    zonesAfter Option.none zones now t = t ∧
    zonesAfter (some "") zones now t = t := by
  refine ⟨?_, rfl, by simp [zonesAfter, replace_zones]⟩
  unfold zonesAfter replace_zones
  by_cases hY : (Y == "") = true
  · simp [hY]
  · simp only [hY, Bool.false_eq_true, if_false]
    cases hins : insertZones Y now zones
        (t.filter (fun zr => !(zr.region == PyVal.str Y))) with
    | error e => rfl
    | ok t2 =>
      have := insertZones_filter_frame X Y hXY now zones _ t2 hins
      rw [this, filter_region_of_delete X Y hXY t]

/-- Cached zone row for region ap-guangzhou, used by the C8 witness. -/
def zrowW : ZoneRow :=
  { zone := PyVal.str "ap-guangzhou-3", region := PyVal.str "ap-guangzhou"
    zone_name := PyVal.str "GZ3", zone_state := PyVal.str "AVAILABLE"
    updated_at := PyVal.int 1 }

theorem C8_zone_replace_isolation_witness :
    (zonesAfter (some "ap-beijing") [[("Zone", PyVal.str "ap-beijing-1")]] 2
        [zrowW]).filter (fun zr => zr.region == PyVal.str "ap-guangzhou") =
      [zrowW].filter (fun zr => zr.region == PyVal.str "ap-guangzhou") ∧
    zonesAfter Option.none [[("Zone", PyVal.str "ap-beijing-1")]] 2 [zrowW] =
      [zrowW] ∧
    zonesAfter (some "") [[("Zone", PyVal.str "ap-beijing-1")]] 2 [zrowW] =
      [zrowW] :=
  C8_zone_replace_isolation "ap-guangzhou" "ap-beijing"
    [[("Zone", PyVal.str "ap-beijing-1")]] 2 [zrowW] (by decide)

/-- C5 (partial-listing frame): when `CVMManager.get_instances` runs with
a non-empty explicit ID filter, its cache-write step is exactly
`upsert_instances` (the soft-delete pass is not run), so any stored row
whose identifier is outside the filter is still present unchanged; the
`soft_delete_missing` pass with the accumulated ID set runs exactly when
no ID filter was given. -/
theorem C5_partial_listing_frame (ids : List String) (records : List Rec)
    (now : Int) (t : List Row) (row : Row)
    (hids : ids ≠ [])
    (hin : ∀ rc ∈ records, (bindRec rc).instance_id ∈ ids.map PyVal.str)
    (hrow : row ∈ t)
    (hout : ¬ row.instance_id ∈ ids.map PyVal.str) :
    cvm_cache_write (some ids) records now t = upsert_instances records now t ∧
    row ∈ cvm_cache_write (some ids) records now t ∧
    cvm_cache_write Option.none records now t =
      soft_delete_missing
        (some (records.map (fun r => dget r "InstanceId"))) now
        (upsert_instances records now t) := by
  have hfalse : idsFalsy (some ids) = false := by
    cases ids with
    | nil => exact absurd rfl hids
    | cons a l => rfl
  have h1 : cvm_cache_write (some ids) records now t =
      upsert_instances records now t := by
    simp [cvm_cache_write, hfalse]
  refine ⟨h1, ?_, rfl⟩
  rw [h1]
  refine mem_upsert_instances_of_ne records now row t ?_ hrow
  intro rc hrc hEq
  refine hout ?_
  rw [hEq]
  exact hin rc hrc

/-- Stored row outside the ID filter, used by the C5 witness. -/
def rowW5 : Row :=
  { instance_id := PyVal.str "i-2", instance_name := PyVal.none
    status := PyVal.str "RUNNING", region := PyVal.none, zone := PyVal.none
    instance_type := PyVal.none, image_id := PyVal.none
    image_name := PyVal.none, platform := PyVal.none, cpu := PyVal.none
    memory := PyVal.none, private_ip := PyVal.none, public_ip := PyVal.none
    expired_time := PyVal.none, created_time := PyVal.none
    updated_at := PyVal.int 0 }

theorem C5_partial_listing_frame_witness :
    cvm_cache_write (some ["i-1"]) [[("InstanceId", PyVal.str "i-1")]] 4
        [rowW5] =
      upsert_instances [[("InstanceId", PyVal.str "i-1")]] 4 [rowW5] ∧
    rowW5 ∈ cvm_cache_write (some ["i-1"])
        [[("InstanceId", PyVal.str "i-1")]] 4 [rowW5] ∧
    cvm_cache_write Option.none [[("InstanceId", PyVal.str "i-1")]] 4
        [rowW5] =
      soft_delete_missing
        (some ([[("InstanceId", PyVal.str "i-1")]].map
          (fun r => dget r "InstanceId"))) 4
        (upsert_instances [[("InstanceId", PyVal.str "i-1")]] 4 [rowW5]) :=
  C5_partial_listing_frame ["i-1"] [[("InstanceId", PyVal.str "i-1")]] 4
    [rowW5] rowW5 (by decide) (by decide) (by decide) (by decide)

/-- C1 (full-resync convergence): from a store holding exactly three
instances a, b, c, all RUNNING, `mark_all_instances_as_deleted` followed
by `upsert_instances` with RUNNING records for a and b rewrites the table
to the two merged rows plus c's sentinel row; a's and b's merged rows are
RUNNING, c's row carries the soft-delete sentinel `'-1'`, and
`list_instances` then returns exactly the rows for a and b (in that
order, both RUNNING). -/
theorem C1_full_resync_convergence (a b c : String) (rA rB rC : Row)
    (recA recB : Rec) (now1 now2 : Int)
    (hab : a ≠ b) (hac : a ≠ c) (hbc : b ≠ c)
    (hAid : rA.instance_id = PyVal.str a)
    (hAst : rA.status = PyVal.str "RUNNING")
    (hBid : rB.instance_id = PyVal.str b)
    (hBst : rB.status = PyVal.str "RUNNING")
    (hCid : rC.instance_id = PyVal.str c)
    (hCst : rC.status = PyVal.str "RUNNING")
    (haid : (bindRec recA).instance_id = PyVal.str a)
    (hast : (bindRec recA).status = PyVal.str "RUNNING")
    (hbid : (bindRec recB).instance_id = PyVal.str b)
    (hbst : (bindRec recB).status = PyVal.str "RUNNING") :
    upsert_instances [recA, recB] now2
        (mark_all_instances_as_deleted now1 [rA, rB, rC]) =
      [mergeRow (bindRec recA) now2
         { rA with status := PyVal.str "-1", updated_at := PyVal.int now1 },
       mergeRow (bindRec recB) now2
         { rB with status := PyVal.str "-1", updated_at := PyVal.int now1 },
       { rC with status := PyVal.str "-1", updated_at := PyVal.int now1 }] ∧
    (mergeRow (bindRec recA) now2
       { rA with status := PyVal.str "-1", updated_at := PyVal.int now1 }).status
      = PyVal.str "RUNNING" ∧
    (mergeRow (bindRec recB) now2
       { rB with status := PyVal.str "-1", updated_at := PyVal.int now1 }).status
      = PyVal.str "RUNNING" ∧
    ({ rC with status := PyVal.str "-1", updated_at := PyVal.int now1 } : Row).status = PyVal.str "-1" ∧
    (list_instances false (upsert_instances [recA, recB] now2
        (mark_all_instances_as_deleted now1 [rA, rB, rC]))).map
      (fun v => (v.instance_id, v.status)) =
      [(PyVal.str a, PyVal.str "RUNNING"),
       (PyVal.str b, PyVal.str "RUNNING")] := by
  have hrun : sqlNeStr (PyVal.str "RUNNING") "-1" = true := by decide
  have hmark : mark_all_instances_as_deleted now1 [rA, rB, rC] =
      [{ rA with status := PyVal.str "-1", updated_at := PyVal.int now1 },
       { rB with status := PyVal.str "-1", updated_at := PyVal.int now1 },
       { rC with status := PyVal.str "-1", updated_at := PyVal.int now1 }] := by
    unfold mark_all_instances_as_deleted
    simp only [List.map_cons, List.map_nil, hAst, hBst, hCst, hrun, if_true]
  have h2 : upsertOne recA now2
      [{ rA with status := PyVal.str "-1", updated_at := PyVal.int now1 },
       { rB with status := PyVal.str "-1", updated_at := PyVal.int now1 },
       { rC with status := PyVal.str "-1", updated_at := PyVal.int now1 }] =
      [mergeRow (bindRec recA) now2
         { rA with status := PyVal.str "-1", updated_at := PyVal.int now1 },
       { rB with status := PyVal.str "-1", updated_at := PyVal.int now1 },
       { rC with status := PyVal.str "-1", updated_at := PyVal.int now1 }] :=
    upsertOne_conflict recA now2 []
      [{ rB with status := PyVal.str "-1", updated_at := PyVal.int now1 },
       { rC with status := PyVal.str "-1", updated_at := PyVal.int now1 }]
      { rA with status := PyVal.str "-1", updated_at := PyVal.int now1 }
      a haid (fun x hx => absurd hx (List.not_mem_nil x)) hAid
  have h3 : upsertOne recB now2
      [mergeRow (bindRec recA) now2
         { rA with status := PyVal.str "-1", updated_at := PyVal.int now1 },
       { rB with status := PyVal.str "-1", updated_at := PyVal.int now1 },
       { rC with status := PyVal.str "-1", updated_at := PyVal.int now1 }] =
      [mergeRow (bindRec recA) now2
         { rA with status := PyVal.str "-1", updated_at := PyVal.int now1 },
       mergeRow (bindRec recB) now2
         { rB with status := PyVal.str "-1", updated_at := PyVal.int now1 },
       { rC with status := PyVal.str "-1", updated_at := PyVal.int now1 }] := by
    refine upsertOne_conflict recB now2
      [mergeRow (bindRec recA) now2
         { rA with status := PyVal.str "-1", updated_at := PyVal.int now1 }]
      [{ rC with status := PyVal.str "-1", updated_at := PyVal.int now1 }]
      { rB with status := PyVal.str "-1", updated_at := PyVal.int now1 }
      b hbid ?_ hBid
    intro x hx
    rcases List.mem_singleton.mp hx with rfl
    show ¬ rA.instance_id = PyVal.str b
    rw [hAid]
    intro h
    exact hab (PyVal.str.inj h)
  have hup : upsert_instances [recA, recB] now2
      (mark_all_instances_as_deleted now1 [rA, rB, rC]) =
      [mergeRow (bindRec recA) now2
         { rA with status := PyVal.str "-1", updated_at := PyVal.int now1 },
       mergeRow (bindRec recB) now2
         { rB with status := PyVal.str "-1", updated_at := PyVal.int now1 },
       { rC with status := PyVal.str "-1", updated_at := PyVal.int now1 }] := by
    rw [hmark]
    show upsertOne recB now2 (upsertOne recA now2 _) = _
    rw [h2, h3]
  refine ⟨hup, hast, hbst, rfl, ?_⟩
  rw [hup]
  have lA : liveRow (mergeRow (bindRec recA) now2
      { rA with status := PyVal.str "-1", updated_at := PyVal.int now1 }) = true := by
    show (sqlNeStr (bindRec recA).status "-1"
      || ((bindRec recA).status == PyVal.none)) = true
    rw [hast]
    decide
  have lB : liveRow (mergeRow (bindRec recB) now2
      { rB with status := PyVal.str "-1", updated_at := PyVal.int now1 }) = true := by
    show (sqlNeStr (bindRec recB).status "-1"
      || ((bindRec recB).status == PyVal.none)) = true
    rw [hbst]
    decide
  have lC : liveRow
      ({ rC with status := PyVal.str "-1", updated_at := PyVal.int now1 } : Row)
      = false := rfl
  unfold list_instances
  rw [if_neg (by simp)]
  rw [List.filter_cons, List.filter_cons, List.filter_cons, List.filter_nil,
    lA, lB, lC]
  simp only [if_true, Bool.false_eq_true, if_false]
  have hle : sqliteLe
      (mergeRow (bindRec recB) now2
        { rB with status := PyVal.str "-1", updated_at := PyVal.int now1 }).updated_at
      (mergeRow (bindRec recA) now2
        { rA with status := PyVal.str "-1", updated_at := PyVal.int now1 }).updated_at
      = true := by
    show sqliteLe (PyVal.int now2) (PyVal.int now2) = true
    simp [sqliteLe]
  have hsort : sortByUpdatedDesc
      [mergeRow (bindRec recA) now2
         { rA with status := PyVal.str "-1", updated_at := PyVal.int now1 },
       mergeRow (bindRec recB) now2
         { rB with status := PyVal.str "-1", updated_at := PyVal.int now1 }] =
      [mergeRow (bindRec recA) now2
         { rA with status := PyVal.str "-1", updated_at := PyVal.int now1 },
       mergeRow (bindRec recB) now2
         { rB with status := PyVal.str "-1", updated_at := PyVal.int now1 }] := by
    show insertByUpdatedDesc _ [_] = _
    simp only [insertByUpdatedDesc, hle, if_true]
  rw [hsort]
  simp only [List.map_cons, List.map_nil]
  show [(rA.instance_id, (bindRec recA).status),
        (rB.instance_id, (bindRec recB).status)] =
    [(PyVal.str a, PyVal.str "RUNNING"), (PyVal.str b, PyVal.str "RUNNING")]
  rw [hAid, hBid, hast, hbst]

/-- Concrete RUNNING rows and records for the C1 witness. -/
def rW1A : Row :=
  { instance_id := PyVal.str "i-a", instance_name := PyVal.str "A"
    status := PyVal.str "RUNNING", region := PyVal.none, zone := PyVal.none
    instance_type := PyVal.none, image_id := PyVal.none
    image_name := PyVal.none, platform := PyVal.none, cpu := PyVal.none
    memory := PyVal.none, private_ip := PyVal.none, public_ip := PyVal.none
    expired_time := PyVal.none, created_time := PyVal.none
    updated_at := PyVal.int 0 }

/-- Second RUNNING row for the C1 witness. -/
def rW1B : Row :=
  { rW1A with instance_id := PyVal.str "i-b", instance_name := PyVal.str "B" }

/-- Third RUNNING row for the C1 witness (destroyed remotely). -/
def rW1C : Row :=
  { rW1A with instance_id := PyVal.str "i-c", instance_name := PyVal.str "C" }

/-- Record for instance i-a in the C1 witness. -/
def recW1A : Rec :=
  [("InstanceId", PyVal.str "i-a"), ("InstanceState", PyVal.str "RUNNING")]

/-- Record for instance i-b in the C1 witness. -/
def recW1B : Rec :=
  [("InstanceId", PyVal.str "i-b"), ("InstanceState", PyVal.str "RUNNING")]

theorem C1_full_resync_convergence_witness :
    upsert_instances [recW1A, recW1B] 2
        (mark_all_instances_as_deleted 1 [rW1A, rW1B, rW1C]) =
      [mergeRow (bindRec recW1A) 2
         { rW1A with status := PyVal.str "-1", updated_at := PyVal.int 1 },
       mergeRow (bindRec recW1B) 2
         { rW1B with status := PyVal.str "-1", updated_at := PyVal.int 1 },
       { rW1C with status := PyVal.str "-1", updated_at := PyVal.int 1 }] ∧
    (mergeRow (bindRec recW1A) 2
       { rW1A with status := PyVal.str "-1", updated_at := PyVal.int 1 }).status
      = PyVal.str "RUNNING" ∧
    (mergeRow (bindRec recW1B) 2
       { rW1B with status := PyVal.str "-1", updated_at := PyVal.int 1 }).status
      = PyVal.str "RUNNING" ∧
    ({ rW1C with status := PyVal.str "-1", updated_at := PyVal.int 1 } : Row).status = PyVal.str "-1" ∧
    (list_instances false (upsert_instances [recW1A, recW1B] 2
        (mark_all_instances_as_deleted 1 [rW1A, rW1B, rW1C]))).map
      (fun v => (v.instance_id, v.status)) =
      [(PyVal.str "i-a", PyVal.str "RUNNING"),
       (PyVal.str "i-b", PyVal.str "RUNNING")] :=
  C1_full_resync_convergence "i-a" "i-b" "i-c" rW1A rW1B rW1C recW1A recW1B
    1 2 (by decide) (by decide) (by decide) rfl rfl rfl rfl rfl rfl
    (by decide) (by decide) (by decide) (by decide)

/-- C6 (disk-type fallback termination): when the first create attempt
fails with a disk-type-unsupported error and every fallback disk type
from the fixed priority list (excluding the type already tried) also
fails, the guarded block re-raises the original error `e0` (not a
fallback-specific one); `tried_types` is the original type followed by
every fallback type, so the set of attempted disk types equals the full
fallback priority list; and exactly one warning was recorded per
fallback attempt. -/
theorem C6_disk_fallback_termination {α : Type}
    (attempt : String → Except String α) (orig e0 : String)
    (horig : orig ∈ fallbackPriority)
    (h0 : attempt orig = Except.error e0)
    (hdisk : is_disk_type_error e0 = true)
    (hfail : ∀ t ∈ fallbackPriority, ¬ t = orig →
      ∃ m, attempt t = Except.error m) :
    (create_disk_attempts attempt (some orig)).raisedMsg = some e0 ∧
    (create_disk_attempts attempt (some orig)).triedTypes =
      some orig ::
        (fallbackPriority.filter (fun t => !(t == orig))).map some ∧
    (create_disk_attempts attempt (some orig)).warningsOf.length =
      (fallbackPriority.filter (fun t => !(t == orig))).length ∧
    ((create_disk_attempts attempt (some orig)).triedTypes.filterMap id).toFinset =
      fallbackPriority.toFinset := by
  have horig4 : orig = "CLOUD_PREMIUM" ∨ orig = "CLOUD_SSD" ∨
      orig = "CLOUD_BSSD" ∨ orig = "CLOUD_HSSD" := by
    simpa [fallbackPriority] using horig
  rcases horig4 with rfl | rfl | rfl | rfl
  · obtain ⟨m1, h1⟩ := hfail "CLOUD_SSD" (by simp [fallbackPriority]) (by decide)
    obtain ⟨m2, h2⟩ := hfail "CLOUD_BSSD" (by simp [fallbackPriority]) (by decide)
    obtain ⟨m3, h3⟩ := hfail "CLOUD_HSSD" (by simp [fallbackPriority]) (by decide)
    have key : create_disk_attempts attempt (some "CLOUD_PREMIUM") =
        CreateResult.raised e0
          [fallbackWarn (some "CLOUD_PREMIUM") "CLOUD_SSD",
           fallbackWarn (some "CLOUD_SSD") "CLOUD_BSSD",
           fallbackWarn (some "CLOUD_BSSD") "CLOUD_HSSD"]
          [some "CLOUD_PREMIUM", some "CLOUD_SSD", some "CLOUD_BSSD",
           some "CLOUD_HSSD"] := by
      simp [create_disk_attempts, h0, hdisk, fallbackPriority, fbLoop,
        h1, h2, h3, fallbackWarn, optStr]
    have ht : (create_disk_attempts attempt (some "CLOUD_PREMIUM")).triedTypes =
        [some "CLOUD_PREMIUM", some "CLOUD_SSD", some "CLOUD_BSSD",
         some "CLOUD_HSSD"] := by
      rw [key]
      rfl
    have hw : (create_disk_attempts attempt
        (some "CLOUD_PREMIUM")).warningsOf.length = 3 := by
      rw [key]
      rfl
    have hm : (create_disk_attempts attempt
        (some "CLOUD_PREMIUM")).raisedMsg = some e0 := by
      rw [key]
      rfl
    refine ⟨hm, ?_, ?_, ?_⟩
    · rw [ht]; decide
    · rw [hw]; decide
    · rw [ht]; decide
  · obtain ⟨m1, h1⟩ := hfail "CLOUD_PREMIUM" (by simp [fallbackPriority]) (by decide)
    obtain ⟨m2, h2⟩ := hfail "CLOUD_BSSD" (by simp [fallbackPriority]) (by decide)
    obtain ⟨m3, h3⟩ := hfail "CLOUD_HSSD" (by simp [fallbackPriority]) (by decide)
    have key : create_disk_attempts attempt (some "CLOUD_SSD") =
        CreateResult.raised e0
          [fallbackWarn (some "CLOUD_SSD") "CLOUD_PREMIUM",
           fallbackWarn (some "CLOUD_PREMIUM") "CLOUD_BSSD",
           fallbackWarn (some "CLOUD_BSSD") "CLOUD_HSSD"]
          [some "CLOUD_SSD", some "CLOUD_PREMIUM", some "CLOUD_BSSD",
           some "CLOUD_HSSD"] := by
      simp [create_disk_attempts, h0, hdisk, fallbackPriority, fbLoop,
        h1, h2, h3, fallbackWarn, optStr]
    have ht : (create_disk_attempts attempt (some "CLOUD_SSD")).triedTypes =
        [some "CLOUD_SSD", some "CLOUD_PREMIUM", some "CLOUD_BSSD",
         some "CLOUD_HSSD"] := by
      rw [key]
      rfl
    have hw : (create_disk_attempts attempt
        (some "CLOUD_SSD")).warningsOf.length = 3 := by
      rw [key]
      rfl
    have hm : (create_disk_attempts attempt
        (some "CLOUD_SSD")).raisedMsg = some e0 := by
      rw [key]
      rfl
    refine ⟨hm, ?_, ?_, ?_⟩
    · rw [ht]; decide
    · rw [hw]; decide
    · rw [ht]; decide
  · obtain ⟨m1, h1⟩ := hfail "CLOUD_PREMIUM" (by simp [fallbackPriority]) (by decide)
    obtain ⟨m2, h2⟩ := hfail "CLOUD_SSD" (by simp [fallbackPriority]) (by decide)
    obtain ⟨m3, h3⟩ := hfail "CLOUD_HSSD" (by simp [fallbackPriority]) (by decide)
    have key : create_disk_attempts attempt (some "CLOUD_BSSD") =
        CreateResult.raised e0
          [fallbackWarn (some "CLOUD_BSSD") "CLOUD_PREMIUM",
           fallbackWarn (some "CLOUD_PREMIUM") "CLOUD_SSD",
           fallbackWarn (some "CLOUD_SSD") "CLOUD_HSSD"]
          [some "CLOUD_BSSD", some "CLOUD_PREMIUM", some "CLOUD_SSD",
           some "CLOUD_HSSD"] := by
      simp [create_disk_attempts, h0, hdisk, fallbackPriority, fbLoop,
        h1, h2, h3, fallbackWarn, optStr]
    have ht : (create_disk_attempts attempt (some "CLOUD_BSSD")).triedTypes =
        [some "CLOUD_BSSD", some "CLOUD_PREMIUM", some "CLOUD_SSD",
         some "CLOUD_HSSD"] := by
      rw [key]
      rfl
    have hw : (create_disk_attempts attempt
        (some "CLOUD_BSSD")).warningsOf.length = 3 := by
      rw [key]
      rfl
    have hm : (create_disk_attempts attempt
        (some "CLOUD_BSSD")).raisedMsg = some e0 := by
      rw [key]
      rfl
    refine ⟨hm, ?_, ?_, ?_⟩
    · rw [ht]; decide
    · rw [hw]; decide
    · rw [ht]; decide
  · obtain ⟨m1, h1⟩ := hfail "CLOUD_PREMIUM" (by simp [fallbackPriority]) (by decide)
    obtain ⟨m2, h2⟩ := hfail "CLOUD_SSD" (by simp [fallbackPriority]) (by decide)
    obtain ⟨m3, h3⟩ := hfail "CLOUD_BSSD" (by simp [fallbackPriority]) (by decide)
    have key : create_disk_attempts attempt (some "CLOUD_HSSD") =
        CreateResult.raised e0
          [fallbackWarn (some "CLOUD_HSSD") "CLOUD_PREMIUM",
           fallbackWarn (some "CLOUD_PREMIUM") "CLOUD_SSD",
           fallbackWarn (some "CLOUD_SSD") "CLOUD_BSSD"]
          [some "CLOUD_HSSD", some "CLOUD_PREMIUM", some "CLOUD_SSD",
           some "CLOUD_BSSD"] := by
      simp [create_disk_attempts, h0, hdisk, fallbackPriority, fbLoop,
        h1, h2, h3, fallbackWarn, optStr]
    have ht : (create_disk_attempts attempt (some "CLOUD_HSSD")).triedTypes =
        [some "CLOUD_HSSD", some "CLOUD_PREMIUM", some "CLOUD_SSD",
         some "CLOUD_BSSD"] := by
      rw [key]
      rfl
    have hw : (create_disk_attempts attempt
        (some "CLOUD_HSSD")).warningsOf.length = 3 := by
      rw [key]
      rfl
    have hm : (create_disk_attempts attempt
        (some "CLOUD_HSSD")).raisedMsg = some e0 := by
      rw [key]
      rfl
    refine ⟨hm, ?_, ?_, ?_⟩
    · rw [ht]; decide
    · rw [hw]; decide
    · rw [ht]; decide

/-- RunInstances stub for the C6 witness: every disk type fails with a
disk-type-unsupported error (error code 19045). -/
def attemptW : String → Except String Nat :=
  fun _ => Except.error "err 19045"

theorem C6_disk_fallback_termination_witness :
    (create_disk_attempts attemptW (some "CLOUD_SSD")).raisedMsg =
      some "err 19045" ∧
    (create_disk_attempts attemptW (some "CLOUD_SSD")).triedTypes =
      some "CLOUD_SSD" ::
        (fallbackPriority.filter (fun t => !(t == "CLOUD_SSD"))).map some ∧
    (create_disk_attempts attemptW (some "CLOUD_SSD")).warningsOf.length =
      (fallbackPriority.filter (fun t => !(t == "CLOUD_SSD"))).length ∧
    ((create_disk_attempts attemptW
        (some "CLOUD_SSD")).triedTypes.filterMap id).toFinset =
      fallbackPriority.toFinset :=
  C6_disk_fallback_termination attemptW "CLOUD_SSD" "err 19045"
    (by decide) rfl (by decide)
    (fun t _ _ => ⟨"err 19045", rfl⟩)
